import Mathlib

/-!
# `passData.js`: a shallow embedding

The script `Resources/js/passData.js` registers a `DOMContentLoaded` listener
that calls `generateSelection`, and defines `generateSelection` and
`generateTable`.  Both functions create an `XMLHttpRequest`, install an
`onload` closure, and `open`/`send` a POST request.

The hosting environment is modelled explicitly:

* the document is a tree of nodes, stored as the list of its nodes in tree
  order, each with its depth; the descendants of a node are the nodes that
  follow it for as long as they are deeper;
* `document.getElementById` returns the first element in tree order with the
  given id;
* assigning to `innerHTML` hands the string to the HTML fragment parser, with
  the element as context, and replaces all descendants of the element by the
  nodes the parser builds.  The parser is a parameter of the model: every
  theorem that does not name a fact about it holds for every parser;
* reading `innerHTML` serialises the descendants; the serialisation is
  modelled for text nodes (escaping of `&`, `<`, `>` and the no-break space);
* every `new XMLHttpRequest()` allocates an object in a heap; a closure that
  captured the local variable `xhr1` / `xhr` carries the address of that object;
* the global object has an own property `category` (created by the
  assignment without `var` in `generateTable`);
* the network is an environment action: `receiveResponse` stores status and
  body in the request object and fires its `load` event, `networkError`
  finishes the request without firing `load`.
-/

namespace PassData

/-! ## Values and errors -/

/-- JavaScript values held by the `value` property of an element or by a global:
a form control holds a string, an element without the property gives
`undefined`; `null` and booleans stand for values assigned by other code.
Numbers and objects are not modelled. -/
inductive JSValue where
  | undefined
  | null
  | boolean (b : Bool)
  | string (s : String)
  deriving DecidableEq, Repr

/-- The coercion `String(v)`. -/
def jsString : JSValue → String
  | .undefined => "undefined"
  | .null => "null"
  | .boolean true => "true"
  | .boolean false => "false"
  | .string s => s

/-- Exceptions the modelled code can raise. -/
inductive JSError where
  | TypeError
  | ReferenceError
  | InvalidStateError
  deriving DecidableEq, Repr

/-! ## The document -/

/-- What a node is: a text node with its data, or an element with its tag
name, its `id` attribute (if it has one) and its `value` property. -/
inductive Content where
  | text (data : String)
  | element (tag : String) (id : Option String) (value : JSValue)
  deriving DecidableEq, Repr

/-- A node of the page with its depth in the tree. -/
structure Node where
  depth : Nat
  content : Content
  deriving DecidableEq, Repr

/-- The node is an element whose `id` attribute is `id`. -/
def Node.hasId (n : Node) (id : String) : Bool :=
  match n.content with
  | .element _ (some i) _ => decide (i = id)
  | _ => false

/-- The `value` property of a node (`undefined` on a text node). -/
def Node.value (n : Node) : JSValue :=
  match n.content with
  | .element _ _ v => v
  | .text _ => .undefined

/-- The tag name of an element (`#text` for a text node). -/
def Node.tag (n : Node) : String :=
  match n.content with
  | .element t _ _ => t
  | .text _ => "#text"

/-- The page: its nodes in tree order. -/
abbrev Document := List Node

/-- The HTML fragment parser: from a context element and a string of markup to
the nodes it builds, in tree order, with depths counted from 0. -/
abbrev HTMLParser := Node → String → List Node

/-- `document.getElementById(id)`: the first element with that id, if any. -/
def getElementById : Document → String → Option Node
  | [], _ => none
  | e :: es, id => if e.hasId id then some e else getElementById es id

/-- Node `n` is deeper than `e`. -/
def below (e n : Node) : Bool := decide (e.depth < n.depth)

/-- Parsed nodes placed as the descendants of `e`. -/
def graft (e : Node) (ns : List Node) : List Node :=
  ns.map fun n => { n with depth := n.depth + (e.depth + 1) }

/-- Descendants of `e` with depths counted from 0 again. -/
def ungraft (e : Node) (ns : List Node) : List Node :=
  ns.map fun n => { n with depth := n.depth - (e.depth + 1) }

/-- The assignment `document.getElementById(id).innerHTML = b` on an existing
element: the descendants of the first element with that id are replaced by the
nodes parsed from `b` in the context of that element. -/
def setInnerHTML (parse : HTMLParser) : Document → String → String → Document
  | [], _, _ => []
  | e :: es, id, b =>
    if e.hasId id then e :: (graft e (parse e b) ++ es.dropWhile (below e))
    else e :: setInnerHTML parse es id b

/-- The descendants of the first element with the given id, in tree order,
with depths counted from 0. -/
def fragmentOf : Document → String → List Node
  | [], _ => []
  | e :: es, id =>
    if e.hasId id then ungraft e (es.takeWhile (below e)) else fragmentOf es id

/-- Escaping of one character of text in the HTML serialisation. -/
def escapeChar (c : Char) : List Char :=
  if c = '&' then "&amp;".data
  else if c = '<' then "&lt;".data
  else if c = '>' then "&gt;".data
  else if c = Char.ofNat 160 then "&nbsp;".data
  else [c]

/-- Escaping of text in the HTML serialisation. -/
def escapeText (data : String) : String :=
  String.mk (data.data.flatMap escapeChar)

/-- Elements whose text children are serialised without escaping (`noscript`
among them, scripting being enabled where this script runs). -/
def rawTextTags : List String :=
  ["style", "script", "xmp", "iframe", "noembed", "noframes", "plaintext", "noscript"]

/-- Serialisation of a list of text nodes, children of an element that is
(`raw`) or is not one of the raw-text elements; `none` when an element is among
the nodes (the serialisation of elements is not modelled). -/
def serializeText (raw : Bool) : List Node → Option String
  | [] => some ""
  | n :: ns =>
    match n.content with
    | .text data =>
      (serializeText raw ns).map fun r => (if raw then data else escapeText data) ++ r
    | .element _ _ _ => none

/-- Reading `document.getElementById(id).innerHTML`: the serialisation of the
descendants of the element.  `none` when there is no such element or when an
element is among the descendants (outside what is modelled). -/
def innerHTML (d : Document) (id : String) : Option String :=
  match getElementById d id with
  | none => none
  | some e => serializeText (rawTextTags.contains e.tag) (fragmentOf d id)

/-! ## Request objects, closures and the program state -/

/-- The two `onload` function expressions of the script, each with the
request object its free variable (`xhr1`, resp. `xhr`) is bound to. -/
inductive Closure where
  | generateSelection_onload (xhr1 : Nat)
  | generateTable_onload (xhr : Nat)
  deriving DecidableEq, Repr

/-- An `XMLHttpRequest` object. -/
structure XMLHttpRequest where
  onload : Option Closure
  method : String
  url : String
  async : Bool
  opened : Bool
  sendFlag : Bool
  requestBody : Option String
  done : Bool
  status : Nat
  responseText : String
  deriving DecidableEq, Repr

/-- The object produced by `new XMLHttpRequest()`. -/
def XMLHttpRequest.new : XMLHttpRequest where
  onload := none
  method := ""
  url := ""
  async := true
  opened := false
  sendFlag := false
  requestBody := none
  done := false
  status := 0
  responseText := ""

/-- Function expressions registered as event listeners on `document`. -/
inductive Listener where
  | domContentLoaded_listener
  deriving DecidableEq, Repr

/-- The program state: the page, the own property `category` of the global
object (`none` when it has none), the heap of request objects and the
listeners registered on `document`. -/
structure State where
  document : Document
  category : Option JSValue
  heap : List XMLHttpRequest
  listeners : List (String × Listener)
  deriving DecidableEq, Repr

/-- The result of running a piece of code: the state it leaves and the
exception that ended it, if any. -/
structure Outcome where
  state : State
  error : Option JSError
  deriving DecidableEq, Repr

/-- Normal completion. -/
def Outcome.ok (s : State) : Outcome := ⟨s, none⟩

/-- Abrupt completion. -/
def Outcome.throw (s : State) (e : JSError) : Outcome := ⟨s, some e⟩

/-- Sequencing: the continuation runs only after a normal completion. -/
def Outcome.andThen (o : Outcome) (k : State → Outcome) : Outcome :=
  match o.error with
  | none => k o.state
  | some _ => o

/-- Apply `f` to the object at address `i`. -/
def updateAt : List XMLHttpRequest → Nat → (XMLHttpRequest → XMLHttpRequest) →
    List XMLHttpRequest
  | [], _, _ => []
  | x :: xs, 0, f => f x :: xs
  | x :: xs, n + 1, f => x :: updateAt xs n f

/-- `xhr.onload = c`. -/
def setOnload (s : State) (xhr : Nat) (c : Closure) : State :=
  { s with heap := updateAt s.heap xhr (fun x => { x with onload := some c }) }

/-- `xhr.open(method, url, async)`. -/
def xhrOpen (s : State) (xhr : Nat) (method url : String) (async : Bool) : Outcome :=
  .ok { s with heap := updateAt s.heap xhr (fun x =>
    { x with method := method, url := url, async := async, opened := true,
             sendFlag := false }) }

/-- `xhr.send(body)`: an `InvalidStateError` unless the request is opened and
not yet sent. -/
def xhrSend (s : State) (xhr : Nat) (body : Option String) : Outcome :=
  match s.heap[xhr]? with
  | some x =>
    if x.opened && !x.sendFlag then
      .ok { s with heap := updateAt s.heap xhr (fun x =>
        { x with sendFlag := true, requestBody := body }) }
    else .throw s .InvalidStateError
  | none => .throw s .ReferenceError

/-! ## The script -/

/-- Body of the function assigned to `xhr1.onload` in `generateSelection`.  The
closure holds a reference to its request object, so the last branch is not
reached from states the script produces. -/
def generateSelection_onload (parse : HTMLParser) (xhr1 : Nat) (s : State) : Outcome :=
  match s.heap[xhr1]? with
  | some x =>
    if x.status = 200 then
      match getElementById s.document "category" with
      | some _ =>
        .ok { s with document := setInnerHTML parse s.document "category" x.responseText }
      | none => .throw s .TypeError
    else .ok s
  | none => .throw s .ReferenceError

/-- Body of the function assigned to `xhr.onload` in `generateTable`.  The
closure holds a reference to its request object, so the last branch is not
reached from states the script produces. -/
def generateTable_onload (parse : HTMLParser) (xhr : Nat) (s : State) : Outcome :=
  match s.heap[xhr]? with
  | some x =>
    if x.status = 200 then
      match getElementById s.document "inside" with
      | some _ =>
        .ok { s with document := setInnerHTML parse s.document "inside" x.responseText }
      | none => .throw s .TypeError
    else .ok s
  | none => .throw s .ReferenceError

/-- Calling a closure. -/
def Closure.call (parse : HTMLParser) : Closure → State → Outcome
  | .generateSelection_onload xhr1, s => PassData.generateSelection_onload parse xhr1 s
  | .generateTable_onload xhr, s => PassData.generateTable_onload parse xhr s

/-- The function `generateSelection`. -/
def generateSelection (s : State) : Outcome :=
  let xhr1 := s.heap.length
  let s := { s with heap := s.heap ++ [XMLHttpRequest.new] }
  let s := setOnload s xhr1 (.generateSelection_onload xhr1)
  (xhrOpen s xhr1 "POST" "GetCategories.do" true).andThen fun s =>
  xhrSend s xhr1 none

/-- The function `generateTable`.  The first statement assigns to `category`
without `var`, which sets a property of the global object; the argument of
`send` reads that global back. -/
def generateTable (s : State) : Outcome :=
  match getElementById s.document "cat" with
  | none => .throw s .TypeError
  | some cat =>
    let s := { s with category := some (.string (jsString cat.value)) }
    let xhr := s.heap.length
    let s := { s with heap := s.heap ++ [XMLHttpRequest.new] }
    let s := setOnload s xhr (.generateTable_onload xhr)
    (xhrOpen s xhr "POST" "ConnectDB.do" true).andThen fun s =>
    match s.category with
    | some category => xhrSend s xhr (some (jsString category))
    | none => .throw s .ReferenceError

/-- Calling a registered listener. -/
def Listener.call : Listener → State → Outcome
  | .domContentLoaded_listener, s => generateSelection s

/-- Top level of the script:
`document.addEventListener("DOMContentLoaded", function() ...)`. -/
def script (s : State) : State :=
  { s with listeners := s.listeners ++ [("DOMContentLoaded", .domContentLoaded_listener)] }

/-! ## The environment -/

/-- Run listeners one after the other; an exception in one listener is
reported and does not stop the others. -/
def runListeners : List (String × Listener) → String → State → State × List JSError
  | [], _, s => (s, [])
  | (n, l) :: ls, name, s =>
    if n = name then
      let o := l.call s
      let r := runListeners ls name o.state
      (r.1, o.error.toList ++ r.2)
    else runListeners ls name s

/-- The document fires the event `name`. -/
def dispatchEvent (s : State) (name : String) : State × List JSError :=
  runListeners s.listeners name s

/-- The state in which request object `xhr` holds the received status and body. -/
def recordResponse (s : State) (xhr : Nat) (status : Nat) (body : String) : State :=
  { s with heap := updateAt s.heap xhr (fun x =>
      { x with status := status, responseText := body, done := true }) }

/-- The response to request `xhr` arrives with the given status and body: the
object records them and its `load` event fires. -/
def receiveResponse (parse : HTMLParser) (s : State) (xhr : Nat) (status : Nat)
    (body : String) : Outcome :=
  match s.heap[xhr]? with
  | some x =>
    if x.sendFlag && !x.done then
      let s := recordResponse s xhr status body
      match x.onload with
      | some c => c.call parse s
      | none => .ok s
    else .ok s
  | none => .ok s

/-- Request `xhr` fails at the transport level: the request is finished with
status 0 and its `error` event fires, for which the script has no handler; the
`load` event does not fire. -/
def networkError (s : State) (xhr : Nat) : Outcome :=
  match s.heap[xhr]? with
  | some x =>
    if x.sendFlag && !x.done then
      .ok { s with heap := updateAt s.heap xhr (fun x =>
        { x with status := 0, responseText := "", done := true }) }
    else .ok s
  | none => .ok s

/-- The request object at address `xhr` is a pending request issued by
`generateSelection`. -/
def IssuedBySelection (s : State) (xhr : Nat) : Prop :=
  ∃ x, s.heap[xhr]? = some x ∧ x.onload = some (.generateSelection_onload xhr) ∧
    x.sendFlag = true ∧ x.done = false

/-- The request object at address `xhr` is a pending request issued by
`generateTable`. -/
def IssuedByTable (s : State) (xhr : Nat) : Prop :=
  ∃ x, s.heap[xhr]? = some x ∧ x.onload = some (.generateTable_onload xhr) ∧
    x.sendFlag = true ∧ x.done = false

/-- The request object that `generateSelection` leaves in the heap. -/
def selectionRequest (xhr1 : Nat) : XMLHttpRequest where
  onload := some (.generateSelection_onload xhr1)
  method := "POST"
  url := "GetCategories.do"
  async := true
  opened := true
  sendFlag := true
  requestBody := none
  done := false
  status := 0
  responseText := ""

/-- The request object that `generateTable` leaves in the heap when it sends
the text `body`. -/
def tableRequest (xhr : Nat) (body : String) : XMLHttpRequest where
  onload := some (.generateTable_onload xhr)
  method := "POST"
  url := "ConnectDB.do"
  async := true
  opened := true
  sendFlag := true
  requestBody := some body
  done := false
  status := 0
  responseText := ""

/-! ## Example pages -/

/-- The container `<div id="category">`. -/
def categoryDiv : Node := ⟨0, .element "div" (some "category") .undefined⟩

/-- The container `<div id="inside">`. -/
def insideDiv : Node := ⟨0, .element "div" (some "inside") .undefined⟩

/-- The input `cat` holding the given text. -/
def catInput (v : String) : Node := ⟨0, .element "input" (some "cat") (.string v)⟩

/-- A text node at the given depth. -/
def textNode (depth : Nat) (data : String) : Node := ⟨depth, .text data⟩

/-- A page with the three elements the script uses, the two containers
holding some text. -/
def examplePage : Document :=
  [categoryDiv, textNode 1 "old categories", catInput "Food", insideDiv,
   textNode 1 "old table"]

/-- A freshly loaded page: no global `category`, no requests, no listeners. -/
def exampleState : State := ⟨examplePage, none, [], []⟩

/-- The example page after the script ran, `generateSelection` was called and
then `generateTable`: request 0 and request 1 are both pending. -/
def examplePending : State := (generateTable (generateSelection exampleState).state).state

/-- The example page after a first call of `generateTable`, with the
selection in `cat` changed to "Drinks" while that request is pending. -/
def exampleSecond : State :=
  { (generateTable exampleState).state with
    document := [categoryDiv, textNode 1 "old categories", catInput "Drinks", insideDiv,
                 textNode 1 "old table"] }

/-- The parser `plainTextParser` extended by one body with markup:
`<span id=inside>new</span>` gives a `span` element with id `inside` holding
the text `new`, as the HTML parser builds in an ordinary container. -/
def spanParser : HTMLParser :=
  fun _ b =>
    if b = "<span id=inside>new</span>" then
      [⟨0, .element "span" (some "inside") .undefined⟩, ⟨1, .text "new"⟩]
    else if b = "" then [] else [⟨0, .text b⟩]

/-- The element `<span id=inside>` at the given depth. -/
def spanInside (depth : Nat) : Node := ⟨depth, .element "span" (some "inside") .undefined⟩

/-- The example page with only the request of `generateSelection` pending, as
right after page load. -/
def exampleLoaded : State := (generateSelection exampleState).state

/-- A page with the input `cat` and neither container, right after page load:
only the request of `generateSelection` is pending. -/
def exampleBareLoaded : State :=
  (generateSelection ⟨[catInput "Food"], none, [], []⟩).state

/-- A page with the input `cat` and neither container, after a call of
`generateTable` alone: only its request is pending. -/
def exampleBareTable : State :=
  (generateTable ⟨[catInput "Food"], none, [], []⟩).state

/-- A fragment parser used to evaluate the theorems on concrete bodies.  On a
body that the HTML tokenizer reads as character data only (no `<` followed by
a letter, `/`, `!` or `?`, no `&` followed by a letter, a digit or `#`, no
carriage return, no NUL), parsed in an ordinary container such as `div`, it
returns what the HTML parser builds: one text node holding the body, or no
node for the empty body.  On other bodies it is not the HTML parser, and it is
not used there. -/
def plainTextParser : HTMLParser :=
  fun _ b => if b = "" then [] else [textNode 0 b]

/-! ## Lemmas on the heap -/

theorem updateAt_append_length (h : List XMLHttpRequest) (x : XMLHttpRequest)
    (f : XMLHttpRequest → XMLHttpRequest) :
    updateAt (h ++ [x]) h.length f = h ++ [f x] := by
  induction h with
  | nil => rfl
  | cons y ys ih => simp [updateAt, ih]

theorem getElem?_append_length (h : List XMLHttpRequest) (x : XMLHttpRequest) :
    (h ++ [x])[h.length]? = some x := by
  induction h with
  | nil => rfl
  | cons y ys ih => simp

theorem getElem?_append_pair (h : List XMLHttpRequest) (x y : XMLHttpRequest) :
    (h ++ [x, y])[h.length]? = some x ∧ (h ++ [x, y])[h.length + 1]? = some y := by
  induction h with
  | nil => exact ⟨rfl, rfl⟩
  | cons z zs ih => simpa using ih

theorem getElem?_updateAt_self (h : List XMLHttpRequest) (i : Nat)
    (f : XMLHttpRequest → XMLHttpRequest) :
    (updateAt h i f)[i]? = (h[i]?).map f := by
  induction h generalizing i with
  | nil => cases i <;> simp [updateAt]
  | cons y ys ih =>
    cases i with
    | zero => simp [updateAt]
    | succ n => simpa [updateAt] using ih n

theorem getElem?_updateAt_ne (h : List XMLHttpRequest) (i j : Nat) (hij : i ≠ j)
    (f : XMLHttpRequest → XMLHttpRequest) :
    (updateAt h i f)[j]? = h[j]? := by
  induction h generalizing i j with
  | nil => cases i <;> simp [updateAt]
  | cons y ys ih =>
    cases i with
    | zero =>
      cases j with
      | zero => exact absurd rfl hij
      | succ m => simp [updateAt]
    | succ n =>
      cases j with
      | zero => simp [updateAt]
      | succ m =>
        have hnm : n ≠ m := fun e => hij (by rw [e])
        simpa [updateAt] using ih n m hnm

theorem updateAt_comm (h : List XMLHttpRequest) (i j : Nat) (hij : i ≠ j)
    (f g : XMLHttpRequest → XMLHttpRequest) :
    updateAt (updateAt h i f) j g = updateAt (updateAt h j g) i f := by
  induction h generalizing i j with
  | nil => cases i <;> cases j <;> simp [updateAt]
  | cons y ys ih =>
    cases i with
    | zero =>
      cases j with
      | zero => exact absurd rfl hij
      | succ m => simp [updateAt]
    | succ n =>
      cases j with
      | zero => simp [updateAt]
      | succ m =>
        have hnm : n ≠ m := fun e => hij (by rw [e])
        simp [updateAt, ih n m hnm]

/-! ## Lemmas on lists of nodes -/

theorem dropWhile_append_of_all (p : Node → Bool) (l1 l2 : List Node)
    (h : ∀ n ∈ l1, p n = true) : (l1 ++ l2).dropWhile p = l2.dropWhile p := by
  induction l1 with
  | nil => rfl
  | cons x xs ih =>
    have hx : p x = true := h x (List.mem_cons_self _ _)
    simp only [List.cons_append, List.dropWhile_cons, hx, if_true]
    exact ih (fun n hn => h n (List.mem_cons_of_mem _ hn))

theorem takeWhile_append_of_all (p : Node → Bool) (l1 l2 : List Node)
    (h : ∀ n ∈ l1, p n = true) : (l1 ++ l2).takeWhile p = l1 ++ l2.takeWhile p := by
  induction l1 with
  | nil => rfl
  | cons x xs ih =>
    have hx : p x = true := h x (List.mem_cons_self _ _)
    simp only [List.cons_append, List.takeWhile_cons, hx, if_true]
    rw [ih (fun n hn => h n (List.mem_cons_of_mem _ hn))]

theorem mem_takeWhile_imp (p : Node → Bool) (l : List Node) :
    ∀ n ∈ l.takeWhile p, p n = true := by
  induction l with
  | nil => intro n hn; cases hn
  | cons x xs ih =>
    intro n hn
    by_cases hx : p x = true
    · simp only [List.takeWhile_cons, hx, if_true] at hn
      cases hn with
      | head => exact hx
      | tail _ h => exact ih n h
    · simp only [List.takeWhile_cons, hx] at hn
      cases hn

theorem dropWhile_head_false (p : Node → Bool) (l : List Node) (x : Node) (xs : List Node)
    (h : l.dropWhile p = x :: xs) : p x = false := by
  induction l with
  | nil => cases h
  | cons y ys ih =>
    by_cases hy : p y = true
    · simp only [List.dropWhile_cons, hy, if_true] at h
      exact ih h
    · simp only [List.dropWhile_cons, hy] at h
      cases h
      simpa using hy

theorem takeWhile_dropWhile_self (p : Node → Bool) (l : List Node) :
    (l.dropWhile p).takeWhile p = [] := by
  cases hd : l.dropWhile p with
  | nil => rfl
  | cons x xs =>
    have hx := dropWhile_head_false p l x xs hd
    simp [List.takeWhile_cons, hx]

theorem below_graft (e : Node) (ns : List Node) : ∀ n ∈ graft e ns, below e n = true := by
  intro n hn
  simp only [graft, List.mem_map] at hn
  obtain ⟨m, _, rfl⟩ := hn
  simp [below]
  omega

theorem ungraft_graft (e : Node) (ns : List Node) : ungraft e (graft e ns) = ns := by
  induction ns with
  | nil => rfl
  | cons n ns ih =>
    simp only [graft, ungraft, List.map_cons, List.map_map] at ih ⊢
    rw [ih]
    simp

theorem hasId_graft (e : Node) (ns : List Node) (id : String)
    (h : ∀ n ∈ ns, n.hasId id = false) : ∀ n ∈ graft e ns, n.hasId id = false := by
  intro n hn
  simp only [graft, List.mem_map] at hn
  obtain ⟨m, hm, rfl⟩ := hn
  exact h m hm

theorem hasId_ungraft (e : Node) (ns : List Node) (id : String)
    (h : ∀ n ∈ ungraft e ns, n.hasId id = false) : ∀ n ∈ ns, n.hasId id = false := by
  intro n hn
  have : ({ n with depth := n.depth - (e.depth + 1) } : Node) ∈ ungraft e ns := by
    simp only [ungraft, List.mem_map]
    exact ⟨n, hn, rfl⟩
  have h2 := h _ this
  exact h2

theorem hasId_ne {n : Node} {a b : String} (hab : a ≠ b) (h : n.hasId a = true) :
    n.hasId b = false := by
  unfold Node.hasId at h ⊢
  cases hc : n.content with
  | text d => rfl
  | element t i v =>
    cases i with
    | none => rfl
    | some j =>
      rw [hc] at h
      simp only [decide_eq_true_eq] at h
      simp only [decide_eq_false_iff_not]
      intro hjb
      exact hab (h.symm.trans hjb)

/-! ## Lemmas on the document -/

theorem getElementById_append_of_none (l1 l2 : Document) (id : String)
    (h : ∀ n ∈ l1, n.hasId id = false) :
    getElementById (l1 ++ l2) id = getElementById l2 id := by
  induction l1 with
  | nil => rfl
  | cons x xs ih =>
    have hx : x.hasId id = false := h x (List.mem_cons_self _ _)
    simp only [List.cons_append, getElementById, hx]
    exact ih (fun n hn => h n (List.mem_cons_of_mem _ hn))

theorem fragmentOf_append_of_none (l1 l2 : Document) (id : String)
    (h : ∀ n ∈ l1, n.hasId id = false) :
    fragmentOf (l1 ++ l2) id = fragmentOf l2 id := by
  induction l1 with
  | nil => rfl
  | cons x xs ih =>
    have hx : x.hasId id = false := h x (List.mem_cons_self _ _)
    simp only [List.cons_append, fragmentOf, hx]
    exact ih (fun n hn => h n (List.mem_cons_of_mem _ hn))

theorem setInnerHTML_append_of_none (parse : HTMLParser) (l1 l2 : Document) (id b : String)
    (h : ∀ n ∈ l1, n.hasId id = false) :
    setInnerHTML parse (l1 ++ l2) id b = l1 ++ setInnerHTML parse l2 id b := by
  induction l1 with
  | nil => rfl
  | cons x xs ih =>
    have hx : ¬ x.hasId id = true := by simp [h x (List.mem_cons_self _ _)]
    rw [List.cons_append, setInnerHTML, if_neg hx,
      ih (fun n hn => h n (List.mem_cons_of_mem _ hn)), List.cons_append]

theorem setInnerHTML_head (parse : HTMLParser) (x : Node) (xs : Document) (id b : String) :
    ∃ ys, setInnerHTML parse (x :: xs) id b = x :: ys := by
  by_cases hx : x.hasId id = true
  · exact ⟨graft x (parse x b) ++ xs.dropWhile (below x), by rw [setInnerHTML, if_pos hx]⟩
  · exact ⟨setInnerHTML parse xs id b, by rw [setInnerHTML, if_neg hx]⟩

theorem dropWhile_setInnerHTML_dropWhile (parse : HTMLParser) (p : Node → Bool)
    (l : Document) (id b : String) :
    (setInnerHTML parse (l.dropWhile p) id b).dropWhile p =
      setInnerHTML parse (l.dropWhile p) id b := by
  cases hd : l.dropWhile p with
  | nil => rfl
  | cons x xs =>
    have hx := dropWhile_head_false p l x xs hd
    obtain ⟨ys, hys⟩ := setInnerHTML_head parse x xs id b
    rw [hys]
    simp [List.dropWhile_cons, hx]

theorem getElementById_setInnerHTML_self (parse : HTMLParser) (d : Document) (id b : String) :
    getElementById (setInnerHTML parse d id b) id = getElementById d id := by
  induction d with
  | nil => rfl
  | cons e es ih =>
    by_cases h : e.hasId id = true
    · simp only [setInnerHTML, h, if_true, getElementById]
    · simp only [setInnerHTML, h, getElementById]
      exact ih

theorem setInnerHTML_of_none (parse : HTMLParser) (d : Document) (id b : String)
    (hn : getElementById d id = none) : setInnerHTML parse d id b = d := by
  induction d with
  | nil => rfl
  | cons e es ih =>
    by_cases h : e.hasId id = true
    · simp [getElementById, h] at hn
    · simp only [getElementById, h] at hn
      simp only [setInnerHTML, h]
      rw [ih hn]
      rfl

theorem fragmentOf_setInnerHTML_self (parse : HTMLParser) (d : Document) (id b : String)
    (e : Node) (he : getElementById d id = some e) :
    fragmentOf (setInnerHTML parse d id b) id = parse e b := by
  induction d with
  | nil => cases he
  | cons x xs ih =>
    by_cases h : x.hasId id = true
    · simp only [getElementById, h, if_true, Option.some.injEq] at he
      subst he
      simp only [setInnerHTML, h, if_true, fragmentOf]
      rw [takeWhile_append_of_all _ _ _ (below_graft x _), takeWhile_dropWhile_self,
        List.append_nil, ungraft_graft]
    · simp only [getElementById, h] at he
      simp only [setInnerHTML, h, fragmentOf]
      exact ih he

theorem takeWhile_setInnerHTML_of_none (parse : HTMLParser) (p : Node → Bool)
    (es : Document) (a x : String) (h : ∀ n ∈ es.takeWhile p, n.hasId a = false) :
    (setInnerHTML parse es a x).takeWhile p = es.takeWhile p := by
  induction es with
  | nil => rfl
  | cons n ns ih =>
    by_cases hp : p n = true
    · have hmem : n ∈ (n :: ns).takeWhile p := by
        simp only [List.takeWhile_cons, hp, if_true]
        exact List.mem_cons_self _ _
      have hn : ¬ n.hasId a = true := by simp [h n hmem]
      have hns : ∀ m ∈ ns.takeWhile p, m.hasId a = false := by
        intro m hm
        apply h m
        simp only [List.takeWhile_cons, hp, if_true]
        exact List.mem_cons_of_mem _ hm
      rw [setInnerHTML, if_neg hn]
      simp only [List.takeWhile_cons, hp, if_true]
      rw [ih hns]
    · obtain ⟨ys, hys⟩ := setInnerHTML_head parse n ns a x
      rw [hys]
      simp only [List.takeWhile_cons, hp]
      rfl

theorem takeWhile_none_of_fragment (e : Node) (es : Document) (a b : String)
    (hea : e.hasId a = true) (h : ∀ n ∈ fragmentOf (e :: es) a, n.hasId b = false) :
    ∀ n ∈ es.takeWhile (below e), n.hasId b = false := by
  apply hasId_ungraft e
  simpa only [fragmentOf, hea, if_true] using h

/-- A write to the element with id `a` does not change which element has id
`b` nor the descendants of that element, when neither element lies below the
other and the parsed nodes hold no element with id `b`. -/
theorem setInnerHTML_frame (parse : HTMLParser) (d : Document) (a b x : String) (hab : a ≠ b)
    (hA : ∀ n ∈ fragmentOf d a, n.hasId b = false)
    (hB : ∀ n ∈ fragmentOf d b, n.hasId a = false)
    (hN : ∀ e, getElementById d a = some e → ∀ n ∈ parse e x, n.hasId b = false) :
    getElementById (setInnerHTML parse d a x) b = getElementById d b ∧
    fragmentOf (setInnerHTML parse d a x) b = fragmentOf d b := by
  induction d with
  | nil => exact ⟨rfl, rfl⟩
  | cons e es ih =>
    by_cases hea : e.hasId a = true
    · have heb : ¬ e.hasId b = true := by simp [hasId_ne hab hea]
      have hT := takeWhile_none_of_fragment e es a b hea hA
      have hG : ∀ n ∈ graft e (parse e x), n.hasId b = false :=
        hasId_graft e _ b (hN e (by simp only [getElementById, hea, if_true]))
      have hsplit : es = es.takeWhile (below e) ++ es.dropWhile (below e) :=
        (List.takeWhile_append_dropWhile _ _).symm
      rw [setInnerHTML, if_pos hea]
      constructor
      · rw [getElementById, if_neg heb, getElementById, if_neg heb,
          getElementById_append_of_none _ _ _ hG]
        conv_rhs => rw [hsplit]
        rw [getElementById_append_of_none _ _ _ hT]
      · rw [fragmentOf, if_neg heb, fragmentOf, if_neg heb,
          fragmentOf_append_of_none _ _ _ hG]
        conv_rhs => rw [hsplit]
        rw [fragmentOf_append_of_none _ _ _ hT]
    · rw [setInnerHTML, if_neg hea]
      by_cases heb : e.hasId b = true
      · have hT := takeWhile_none_of_fragment e es b a heb hB
        constructor
        · rw [getElementById, if_pos heb, getElementById, if_pos heb]
        · rw [fragmentOf, if_pos heb, fragmentOf, if_pos heb,
            takeWhile_setInnerHTML_of_none parse _ es a x hT]
      · have hA2 : ∀ n ∈ fragmentOf es a, n.hasId b = false := by
          intro n hn; apply hA; rw [fragmentOf, if_neg hea]; exact hn
        have hB2 : ∀ n ∈ fragmentOf es b, n.hasId a = false := by
          intro n hn; apply hB; rw [fragmentOf, if_neg heb]; exact hn
        have hN2 : ∀ c, getElementById es a = some c → ∀ n ∈ parse c x, n.hasId b = false := by
          intro c hc; apply hN; rw [getElementById, if_neg hea]; exact hc
        have := ih hA2 hB2 hN2
        constructor
        · rw [getElementById, if_neg heb, getElementById, if_neg heb]; exact this.1
        · rw [fragmentOf, if_neg heb, fragmentOf, if_neg heb]; exact this.2

theorem setInnerHTML_comm_head (parse : HTMLParser) (e : Node) (es : Document)
    (a b x y : String) (hab : a ≠ b) (hea : e.hasId a = true)
    (hT : ∀ n ∈ es.takeWhile (below e), n.hasId b = false)
    (hG : ∀ n ∈ parse e x, n.hasId b = false) :
    setInnerHTML parse (setInnerHTML parse (e :: es) a x) b y =
      setInnerHTML parse (setInnerHTML parse (e :: es) b y) a x := by
  have heb : ¬ e.hasId b = true := by simp [hasId_ne hab hea]
  have hG2 : ∀ n ∈ graft e (parse e x), n.hasId b = false := hasId_graft e _ b hG
  have hsplit : es = es.takeWhile (below e) ++ es.dropWhile (below e) :=
    (List.takeWhile_append_dropWhile _ _).symm
  have hR : setInnerHTML parse es b y =
      es.takeWhile (below e) ++ setInnerHTML parse (es.dropWhile (below e)) b y := by
    conv_lhs => rw [hsplit]
    exact setInnerHTML_append_of_none parse _ _ b y hT
  rw [setInnerHTML, if_pos hea, setInnerHTML, if_neg heb,
    setInnerHTML_append_of_none parse _ _ b y hG2]
  conv_rhs => rw [setInnerHTML, if_neg heb, setInnerHTML, if_pos hea, hR]
  rw [dropWhile_append_of_all _ _ _ (mem_takeWhile_imp _ _),
    dropWhile_setInnerHTML_dropWhile]

/-- Writes to the elements with ids `a` and `b` commute when neither element
lies below the other and the nodes parsed for one hold no element with the id
of the other. -/
theorem setInnerHTML_comm (parse : HTMLParser) (d : Document) (a b x y : String) (hab : a ≠ b)
    (hA : ∀ n ∈ fragmentOf d a, n.hasId b = false)
    (hB : ∀ n ∈ fragmentOf d b, n.hasId a = false)
    (hNa : ∀ e, getElementById d a = some e → ∀ n ∈ parse e x, n.hasId b = false)
    (hNb : ∀ e, getElementById d b = some e → ∀ n ∈ parse e y, n.hasId a = false) :
    setInnerHTML parse (setInnerHTML parse d a x) b y =
      setInnerHTML parse (setInnerHTML parse d b y) a x := by
  induction d with
  | nil => rfl
  | cons e es ih =>
    by_cases hea : e.hasId a = true
    · exact setInnerHTML_comm_head parse e es a b x y hab hea
        (takeWhile_none_of_fragment e es a b hea hA)
        (hNa e (by simp only [getElementById, hea, if_true]))
    · by_cases heb : e.hasId b = true
      · exact (setInnerHTML_comm_head parse e es b a y x (Ne.symm hab) heb
          (takeWhile_none_of_fragment e es b a heb hB)
          (hNb e (by simp only [getElementById, heb, if_true]))).symm
      · have hA2 : ∀ n ∈ fragmentOf es a, n.hasId b = false := by
          intro n hn; apply hA; rw [fragmentOf, if_neg hea]; exact hn
        have hB2 : ∀ n ∈ fragmentOf es b, n.hasId a = false := by
          intro n hn; apply hB; rw [fragmentOf, if_neg heb]; exact hn
        have hNa2 : ∀ c, getElementById es a = some c →
            ∀ n ∈ parse c x, n.hasId b = false := by
          intro c hc; apply hNa; rw [getElementById, if_neg hea]; exact hc
        have hNb2 : ∀ c, getElementById es b = some c →
            ∀ n ∈ parse c y, n.hasId a = false := by
          intro c hc; apply hNb; rw [getElementById, if_neg heb]; exact hc
        rw [setInnerHTML, if_neg hea, setInnerHTML, if_neg heb, setInnerHTML, if_neg heb,
          setInnerHTML, if_neg hea, ih hA2 hB2 hNa2 hNb2]

/-! ## What the two functions and the environment actions compute -/

theorem generateSelection_eq (s : State) :
    generateSelection s =
      .ok { s with heap := s.heap ++ [selectionRequest s.heap.length] } := by
  simp [generateSelection, setOnload, xhrOpen, xhrSend, Outcome.andThen, Outcome.ok,
    updateAt_append_length, getElem?_append_length, XMLHttpRequest.new, selectionRequest]

theorem generateTable_eq (s : State) (cat : Node)
    (hcat : getElementById s.document "cat" = some cat) :
    generateTable s =
      .ok { s with category := some (.string (jsString cat.value)),
                   heap := s.heap ++ [tableRequest s.heap.length (jsString cat.value)] } := by
  simp [generateTable, hcat, setOnload, xhrOpen, xhrSend, Outcome.andThen, Outcome.ok,
    updateAt_append_length, getElem?_append_length, XMLHttpRequest.new, tableRequest, jsString]

theorem receiveResponse_selection_state (parse : HTMLParser) (s : State) (i st : Nat)
    (b : String) (h : IssuedBySelection s i) :
    (receiveResponse parse s i st b).state =
      { recordResponse s i st b with
        document :=
          if st = 200 then setInnerHTML parse s.document "category" b else s.document } := by
  obtain ⟨x, hx, hon, hs, hd⟩ := h
  by_cases h200 : st = 200
  · cases hg : getElementById s.document "category" with
    | none =>
      simp [receiveResponse, hx, hs, hd, hon, Closure.call, generateSelection_onload,
        recordResponse, getElem?_updateAt_self, h200, hg, Outcome.throw,
        setInnerHTML_of_none _ _ _ _ hg]
    | some e =>
      simp [receiveResponse, hx, hs, hd, hon, Closure.call, generateSelection_onload,
        recordResponse, getElem?_updateAt_self, h200, hg, Outcome.ok]
  · simp [receiveResponse, hx, hs, hd, hon, Closure.call, generateSelection_onload,
      recordResponse, getElem?_updateAt_self, h200, Outcome.ok]

theorem receiveResponse_selection_error (parse : HTMLParser) (s : State) (i st : Nat)
    (b : String) (h : IssuedBySelection s i) :
    (receiveResponse parse s i st b).error =
      if st = 200 ∧ getElementById s.document "category" = none then some .TypeError
      else none := by
  obtain ⟨x, hx, hon, hs, hd⟩ := h
  by_cases h200 : st = 200
  · cases hg : getElementById s.document "category" with
    | none =>
      simp [receiveResponse, hx, hs, hd, hon, Closure.call, generateSelection_onload,
        recordResponse, getElem?_updateAt_self, h200, hg, Outcome.throw]
    | some e =>
      simp [receiveResponse, hx, hs, hd, hon, Closure.call, generateSelection_onload,
        recordResponse, getElem?_updateAt_self, h200, hg, Outcome.ok]
  · simp [receiveResponse, hx, hs, hd, hon, Closure.call, generateSelection_onload,
      recordResponse, getElem?_updateAt_self, h200, Outcome.ok]

theorem receiveResponse_table_state (parse : HTMLParser) (s : State) (i st : Nat)
    (b : String) (h : IssuedByTable s i) :
    (receiveResponse parse s i st b).state =
      { recordResponse s i st b with
        document :=
          if st = 200 then setInnerHTML parse s.document "inside" b else s.document } := by
  obtain ⟨x, hx, hon, hs, hd⟩ := h
  by_cases h200 : st = 200
  · cases hg : getElementById s.document "inside" with
    | none =>
      simp [receiveResponse, hx, hs, hd, hon, Closure.call, generateTable_onload,
        recordResponse, getElem?_updateAt_self, h200, hg, Outcome.throw,
        setInnerHTML_of_none _ _ _ _ hg]
    | some e =>
      simp [receiveResponse, hx, hs, hd, hon, Closure.call, generateTable_onload,
        recordResponse, getElem?_updateAt_self, h200, hg, Outcome.ok]
  · simp [receiveResponse, hx, hs, hd, hon, Closure.call, generateTable_onload,
      recordResponse, getElem?_updateAt_self, h200, Outcome.ok]

theorem receiveResponse_table_error (parse : HTMLParser) (s : State) (i st : Nat)
    (b : String) (h : IssuedByTable s i) :
    (receiveResponse parse s i st b).error =
      if st = 200 ∧ getElementById s.document "inside" = none then some .TypeError
      else none := by
  obtain ⟨x, hx, hon, hs, hd⟩ := h
  by_cases h200 : st = 200
  · cases hg : getElementById s.document "inside" with
    | none =>
      simp [receiveResponse, hx, hs, hd, hon, Closure.call, generateTable_onload,
        recordResponse, getElem?_updateAt_self, h200, hg, Outcome.throw]
    | some e =>
      simp [receiveResponse, hx, hs, hd, hon, Closure.call, generateTable_onload,
        recordResponse, getElem?_updateAt_self, h200, hg, Outcome.ok]
  · simp [receiveResponse, hx, hs, hd, hon, Closure.call, generateTable_onload,
      recordResponse, getElem?_updateAt_self, h200, Outcome.ok]

theorem networkError_eq (s : State) (i : Nat) :
    (networkError s i).state.document = s.document ∧ (networkError s i).error = none := by
  unfold networkError
  cases s.heap[i]? with
  | none => exact ⟨rfl, rfl⟩
  | some x =>
    by_cases hc : (x.sendFlag && !x.done) = true
    · simp only [hc, if_true]
      exact ⟨rfl, rfl⟩
    · simp only [hc]
      exact ⟨rfl, rfl⟩

theorem issuedBySelection_generateSelection (s : State) :
    IssuedBySelection (generateSelection s).state s.heap.length := by
  rw [generateSelection_eq]
  exact ⟨selectionRequest s.heap.length, getElem?_append_length _ _, rfl, rfl, rfl⟩

theorem issuedByTable_generateTable (s : State) (cat : Node)
    (hcat : getElementById s.document "cat" = some cat) :
    IssuedByTable (generateTable s).state s.heap.length := by
  rw [generateTable_eq s cat hcat]
  exact ⟨tableRequest s.heap.length (jsString cat.value), getElem?_append_length _ _,
    rfl, rfl, rfl⟩

theorem issuedByTable_of_heap_eq {s t : State} {j : Nat} (h : IssuedByTable s j)
    (ht : t.heap[j]? = s.heap[j]?) : IssuedByTable t j := by
  obtain ⟨x, hx, rest⟩ := h
  exact ⟨x, ht.trans hx, rest⟩

theorem issuedBySelection_of_heap_eq {s t : State} {j : Nat} (h : IssuedBySelection s j)
    (ht : t.heap[j]? = s.heap[j]?) : IssuedBySelection t j := by
  obtain ⟨x, hx, rest⟩ := h
  exact ⟨x, ht.trans hx, rest⟩

theorem selection_ne_table {s : State} {i j : Nat} (hi : IssuedBySelection s i)
    (hj : IssuedByTable s j) : i ≠ j := by
  obtain ⟨x, hx, hxon, _⟩ := hi
  obtain ⟨y, hy, hyon, _⟩ := hj
  intro hij
  subst hij
  rw [hx] at hy
  cases hy
  rw [hxon] at hyon
  cases hyon

theorem recordResponse_getElem?_ne (s : State) (i j st : Nat) (b : String) (hij : i ≠ j)
    (d : Document) :
    ({ recordResponse s i st b with document := d } : State).heap[j]? = s.heap[j]? := by
  simp [recordResponse, getElem?_updateAt_ne _ _ _ hij]

theorem escapeText_of_plain (b : String) (h : ∀ c ∈ b.data, escapeChar c = [c]) :
    escapeText b = b := by
  have key : ∀ l : List Char, (∀ c ∈ l, escapeChar c = [c]) → l.flatMap escapeChar = l := by
    intro l
    induction l with
    | nil => intro _; rfl
    | cons c cs ih =>
      intro hl
      rw [List.flatMap_cons, hl c (List.mem_cons_self _ _),
        ih (fun d hd => hl d (List.mem_cons_of_mem _ hd))]
      rfl
  unfold escapeText
  rw [key b.data h]

theorem serializeText_single (raw : Bool) (b : String)
    (h : raw = true ∨ ∀ c ∈ b.data, escapeChar c = [c]) :
    serializeText raw [textNode 0 b] = some b := by
  cases raw with
  | true => simp [serializeText, textNode]
  | false =>
    cases h with
    | inl h => cases h
    | inr h => simp [serializeText, textNode, escapeText_of_plain b h]

theorem innerHTML_of_fragment (d : Document) (id : String) (e : Node) (ns : List Node)
    (he : getElementById d id = some e) (hf : fragmentOf d id = ns) :
    innerHTML d id = serializeText (rawTextTags.contains e.tag) ns := by
  simp only [innerHTML, he, hf]

theorem two_table_responses (parse : HTMLParser) (s : State) (i j : Nat)
    (hi : IssuedByTable s i) (hj : IssuedByTable s j) (hij : i ≠ j) (e : Node)
    (he : getElementById s.document "inside" = some e) (st1 st2 : Nat) (b1 b2 : String) :
    getElementById (receiveResponse parse (receiveResponse parse s i st1 b1).state
        j st2 b2).state.document "inside" = some e ∧
    fragmentOf (receiveResponse parse (receiveResponse parse s i st1 b1).state
        j st2 b2).state.document "inside" =
      (if st2 = 200 then parse e b2 else if st1 = 200 then parse e b1
        else fragmentOf s.document "inside") := by
  have h1 := receiveResponse_table_state parse s i st1 b1 hi
  have hj1 : IssuedByTable (receiveResponse parse s i st1 b1).state j := by
    rw [h1]
    exact issuedByTable_of_heap_eq hj (recordResponse_getElem?_ne s i j st1 b1 hij _)
  rw [receiveResponse_table_state parse _ j st2 b2 hj1, h1]
  have he1 : getElementById (setInnerHTML parse s.document "inside" b1) "inside" = some e := by
    rw [getElementById_setInnerHTML_self]; exact he
  by_cases c2 : st2 = 200 <;> by_cases c1 : st1 = 200
  · simp only [if_pos c1, if_pos c2]
    exact ⟨by rw [getElementById_setInnerHTML_self]; exact he1,
      fragmentOf_setInnerHTML_self parse _ _ _ e he1⟩
  · simp only [if_neg c1, if_pos c2, recordResponse]
    exact ⟨by rw [getElementById_setInnerHTML_self]; exact he,
      fragmentOf_setInnerHTML_self parse _ _ _ e he⟩
  · simp only [if_pos c1, if_neg c2]
    exact ⟨he1, fragmentOf_setInnerHTML_self parse _ _ _ e he⟩
  · simp only [if_neg c1, if_neg c2, recordResponse]
    exact ⟨he, trivial⟩

theorem selection_then_table_state (parse : HTMLParser) (s : State) (i j st1 st2 : Nat)
    (b1 b2 : String) (hi : IssuedBySelection s i) (hj : IssuedByTable s j) :
    (receiveResponse parse (receiveResponse parse s i st1 b1).state j st2 b2).state =
      { s with
        heap := updateAt (updateAt s.heap i (fun x =>
            { x with status := st1, responseText := b1, done := true })) j (fun x =>
            { x with status := st2, responseText := b2, done := true }),
        document :=
          if st2 = 200 then
            setInnerHTML parse
              (if st1 = 200 then setInnerHTML parse s.document "category" b1
                else s.document) "inside" b2
          else if st1 = 200 then setInnerHTML parse s.document "category" b1
          else s.document } := by
  have hij : i ≠ j := selection_ne_table hi hj
  have h1 := receiveResponse_selection_state parse s i st1 b1 hi
  have hj1 : IssuedByTable (receiveResponse parse s i st1 b1).state j := by
    rw [h1]
    exact issuedByTable_of_heap_eq hj (recordResponse_getElem?_ne s i j st1 b1 hij _)
  rw [receiveResponse_table_state parse _ j st2 b2 hj1, h1]
  simp only [recordResponse]

theorem table_then_selection_state (parse : HTMLParser) (s : State) (i j st1 st2 : Nat)
    (b1 b2 : String) (hi : IssuedBySelection s i) (hj : IssuedByTable s j) :
    (receiveResponse parse (receiveResponse parse s j st2 b2).state i st1 b1).state =
      { s with
        heap := updateAt (updateAt s.heap j (fun x =>
            { x with status := st2, responseText := b2, done := true })) i (fun x =>
            { x with status := st1, responseText := b1, done := true }),
        document :=
          if st1 = 200 then
            setInnerHTML parse
              (if st2 = 200 then setInnerHTML parse s.document "inside" b2
                else s.document) "category" b1
          else if st2 = 200 then setInnerHTML parse s.document "inside" b2
          else s.document } := by
  have hij : i ≠ j := selection_ne_table hi hj
  have h2 := receiveResponse_table_state parse s j st2 b2 hj
  have hi2 : IssuedBySelection (receiveResponse parse s j st2 b2).state i := by
    rw [h2]
    exact issuedBySelection_of_heap_eq hi
      (recordResponse_getElem?_ne s j i st2 b2 (Ne.symm hij) _)
  rw [receiveResponse_selection_state parse _ i st1 b1 hi2, h2]
  simp only [recordResponse]

theorem plainTextParser_hasId (e : Node) (b id : String) :
    ∀ n ∈ plainTextParser e b, n.hasId id = false := by
  intro n hn
  unfold plainTextParser at hn
  by_cases hb : b = ""
  · simp [hb] at hn
  · simp only [if_neg hb, List.mem_singleton] at hn
    rw [hn]
    rfl

/-! ## The category fetcher -/

/-- C1 fails as stated: on the example page, after `generateSelection`, a
status-200 response with body `Tom & Jerry` leaves element `category` with
`innerHTML` reading `Tom &amp; Jerry`, not the body, for every fragment parser
that builds one text node from that body (as the HTML parser does; the
markup-free parser is one such). -/
theorem category_innerHTML_not_verbatim :
    (∀ parse : HTMLParser,
      parse categoryDiv "Tom & Jerry" = [textNode 0 "Tom & Jerry"] →
      innerHTML (receiveResponse parse (generateSelection exampleState).state 0 200
        "Tom & Jerry").state.document "category" = some "Tom &amp; Jerry") ∧
    plainTextParser categoryDiv "Tom & Jerry" = [textNode 0 "Tom & Jerry"] ∧
    innerHTML (receiveResponse plainTextParser (generateSelection exampleState).state 0 200
      "Tom & Jerry").state.document "category" = some "Tom &amp; Jerry" ∧
    (some "Tom &amp; Jerry" : Option String) ≠ some "Tom & Jerry" := by
  refine ⟨?_, by decide, by decide, by decide⟩
  intro parse hparse
  have hreq := issuedBySelection_generateSelection exampleState
  have he : getElementById (generateSelection exampleState).state.document "category" =
      some categoryDiv := by decide
  have hst := receiveResponse_selection_state parse _ 0 200 "Tom & Jerry" hreq
  rw [hst]
  simp only [if_true]
  rw [innerHTML_of_fragment _ "category" categoryDiv (parse categoryDiv "Tom & Jerry")
    (by rw [getElementById_setInnerHTML_self]; exact he)
    (fragmentOf_setInnerHTML_self parse _ _ _ categoryDiv he), hparse]
  decide

/-- C1 as amended: when the request issued by `generateSelection` completes
with status 200 and body `b` and the page has an element with id `category`,
the handler ends normally, the element itself is the same, and its descendants
are exactly the nodes the fragment parser builds from `b` with that element as
context, whatever it contained before; reading `innerHTML` then gives the
serialisation of those nodes, which is `b` itself when the parser builds one
text node holding `b` and no character of `b` is escaped. -/
theorem category_descendants_after_success (parse : HTMLParser) (s : State) (xhr1 : Nat)
    (b : String) (e : Node)
    (hreq : IssuedBySelection s xhr1)
    (he : getElementById s.document "category" = some e) :
    (receiveResponse parse s xhr1 200 b).error = none ∧
    getElementById (receiveResponse parse s xhr1 200 b).state.document "category" = some e ∧
    fragmentOf (receiveResponse parse s xhr1 200 b).state.document "category" = parse e b ∧
    innerHTML (receiveResponse parse s xhr1 200 b).state.document "category" =
      serializeText (rawTextTags.contains e.tag) (parse e b) ∧
    (parse e b = [textNode 0 b] →
      (rawTextTags.contains e.tag = true ∨ ∀ c ∈ b.data, escapeChar c = [c]) →
      innerHTML (receiveResponse parse s xhr1 200 b).state.document "category" = some b) := by
  have hst := receiveResponse_selection_state parse s xhr1 200 b hreq
  have her := receiveResponse_selection_error parse s xhr1 200 b hreq
  have hdoc : (receiveResponse parse s xhr1 200 b).state.document =
      setInnerHTML parse s.document "category" b := by
    rw [hst]; simp
  have hget : getElementById (setInnerHTML parse s.document "category" b) "category" =
      some e := by
    rw [getElementById_setInnerHTML_self]; exact he
  have hfrag := fragmentOf_setInnerHTML_self parse s.document "category" b e he
  refine ⟨?_, ?_, ?_, ?_, ?_⟩
  · rw [her]; simp [he]
  · rw [hdoc]; exact hget
  · rw [hdoc]; exact hfrag
  · rw [hdoc]; exact innerHTML_of_fragment _ _ e _ hget hfrag
  · intro hp hplain
    rw [hdoc, innerHTML_of_fragment _ _ e _ hget hfrag, hp]
    exact serializeText_single _ b hplain

theorem category_descendants_after_success_witness :
    IssuedBySelection (generateSelection exampleState).state 0 ∧
    getElementById (generateSelection exampleState).state.document "category" =
      some categoryDiv ∧
    ((receiveResponse plainTextParser (generateSelection exampleState).state 0 200
        "Food").error = none ∧
      getElementById (receiveResponse plainTextParser (generateSelection exampleState).state
        0 200 "Food").state.document "category" = some categoryDiv ∧
      fragmentOf (receiveResponse plainTextParser (generateSelection exampleState).state
        0 200 "Food").state.document "category" = plainTextParser categoryDiv "Food" ∧
      innerHTML (receiveResponse plainTextParser (generateSelection exampleState).state
        0 200 "Food").state.document "category" =
        serializeText (rawTextTags.contains categoryDiv.tag)
          (plainTextParser categoryDiv "Food") ∧
      (plainTextParser categoryDiv "Food" = [textNode 0 "Food"] →
        (rawTextTags.contains categoryDiv.tag = true ∨
          ∀ c ∈ ("Food" : String).data, escapeChar c = [c]) →
        innerHTML (receiveResponse plainTextParser (generateSelection exampleState).state
          0 200 "Food").state.document "category" = some "Food")) :=
  ⟨issuedBySelection_generateSelection exampleState, by decide,
    category_descendants_after_success plainTextParser (generateSelection exampleState).state
      0 "Food" categoryDiv (issuedBySelection_generateSelection exampleState) (by decide)⟩

/-- C2: when the request issued by `generateSelection` completes with a status
other than 200, or fails at the transport level (no `load` event), the whole
document, and so the descendants and the `innerHTML` of element `category`, is
as before and no exception is raised, whatever the fragment parser. -/
theorem category_unchanged_after_failure (parse : HTMLParser) (s : State)
    (xhr1 status : Nat) (b : String)
    (hreq : IssuedBySelection s xhr1) (hstatus : status ≠ 200) :
    (receiveResponse parse s xhr1 status b).state.document = s.document ∧
    fragmentOf (receiveResponse parse s xhr1 status b).state.document "category" =
      fragmentOf s.document "category" ∧
    innerHTML (receiveResponse parse s xhr1 status b).state.document "category" =
      innerHTML s.document "category" ∧
    (receiveResponse parse s xhr1 status b).error = none ∧
    (networkError s xhr1).state.document = s.document ∧
    fragmentOf (networkError s xhr1).state.document "category" =
      fragmentOf s.document "category" ∧
    innerHTML (networkError s xhr1).state.document "category" =
      innerHTML s.document "category" ∧
    (networkError s xhr1).error = none := by
  have hst := receiveResponse_selection_state parse s xhr1 status b hreq
  have her := receiveResponse_selection_error parse s xhr1 status b hreq
  have hne := networkError_eq s xhr1
  have hdoc : (receiveResponse parse s xhr1 status b).state.document = s.document := by
    rw [hst]; simp [hstatus, recordResponse]
  refine ⟨hdoc, by rw [hdoc], by rw [hdoc], ?_, hne.1, by rw [hne.1], by rw [hne.1], hne.2⟩
  rw [her]; simp [hstatus]

theorem category_unchanged_after_failure_witness :
    IssuedBySelection (generateSelection exampleState).state 0 ∧ (404 : Nat) ≠ 200 ∧
    ((receiveResponse plainTextParser (generateSelection exampleState).state 0 404
        "Not Found").state.document = (generateSelection exampleState).state.document ∧
      fragmentOf (receiveResponse plainTextParser (generateSelection exampleState).state 0 404
          "Not Found").state.document "category" =
        fragmentOf (generateSelection exampleState).state.document "category" ∧
      innerHTML (receiveResponse plainTextParser (generateSelection exampleState).state 0 404
          "Not Found").state.document "category" =
        innerHTML (generateSelection exampleState).state.document "category" ∧
      (receiveResponse plainTextParser (generateSelection exampleState).state 0 404
        "Not Found").error = none ∧
      (networkError (generateSelection exampleState).state 0).state.document =
        (generateSelection exampleState).state.document ∧
      fragmentOf (networkError (generateSelection exampleState).state 0).state.document
          "category" =
        fragmentOf (generateSelection exampleState).state.document "category" ∧
      innerHTML (networkError (generateSelection exampleState).state 0).state.document
          "category" =
        innerHTML (generateSelection exampleState).state.document "category" ∧
      (networkError (generateSelection exampleState).state 0).error = none) :=
  ⟨issuedBySelection_generateSelection exampleState, by decide,
    category_unchanged_after_failure plainTextParser (generateSelection exampleState).state
      0 404 "Not Found" (issuedBySelection_generateSelection exampleState) (by decide)⟩

/-! ## The table generator -/

/-- C3: whatever value `v` the element with id `cat` holds, `generateTable`
returns normally having created exactly one request object, an asynchronous
POST to `ConnectDB.do` that is sent with body `String(v)` and still pending;
for a string the body is the string itself, for `undefined` it is the text
"undefined", and coercing the coerced text again gives the same text. -/
theorem generateTable_request (s : State) (cat : Node)
    (hcat : getElementById s.document "cat" = some cat) :
    (generateTable s).error = none ∧
    (∃ x, (generateTable s).state.heap = s.heap ++ [x] ∧
      x.method = "POST" ∧ x.url = "ConnectDB.do" ∧ x.async = true ∧
      x.sendFlag = true ∧ x.done = false ∧
      x.requestBody = some (jsString cat.value)) ∧
    (∀ str, cat.value = .string str → jsString cat.value = str) ∧
    (cat.value = .undefined → jsString cat.value = "undefined") ∧
    jsString (.string (jsString cat.value)) = jsString cat.value := by
  rw [generateTable_eq s cat hcat]
  refine ⟨rfl, ⟨tableRequest s.heap.length (jsString cat.value), rfl, rfl, rfl, rfl, rfl,
    rfl, rfl⟩, ?_, ?_, rfl⟩
  · intro str hv; rw [hv]; rfl
  · intro hv; rw [hv]; rfl

theorem generateTable_request_witness :
    getElementById exampleState.document "cat" = some (catInput "Food") ∧
    ((generateTable exampleState).error = none ∧
      (∃ x, (generateTable exampleState).state.heap = exampleState.heap ++ [x] ∧
        x.method = "POST" ∧ x.url = "ConnectDB.do" ∧ x.async = true ∧
        x.sendFlag = true ∧ x.done = false ∧
        x.requestBody = some (jsString (catInput "Food").value)) ∧
      (∀ str, (catInput "Food").value = .string str →
        jsString (catInput "Food").value = str) ∧
      ((catInput "Food").value = .undefined →
        jsString (catInput "Food").value = "undefined") ∧
      jsString (.string (jsString (catInput "Food").value)) =
        jsString (catInput "Food").value) :=
  ⟨by decide, generateTable_request exampleState (catInput "Food") (by decide)⟩

/-- C4 fails as stated: on the example page, after `generateTable`, a
status-200 response with body `1 < 2` leaves element `inside` with `innerHTML`
reading `1 &lt; 2`, not the body, for every fragment parser that builds one
text node from that body (as the HTML parser does; the markup-free parser is
one such). -/
theorem inside_innerHTML_not_verbatim :
    (∀ parse : HTMLParser,
      parse insideDiv "1 < 2" = [textNode 0 "1 < 2"] →
      innerHTML (receiveResponse parse (generateTable exampleState).state 0 200
        "1 < 2").state.document "inside" = some "1 &lt; 2") ∧
    plainTextParser insideDiv "1 < 2" = [textNode 0 "1 < 2"] ∧
    innerHTML (receiveResponse plainTextParser (generateTable exampleState).state 0 200
      "1 < 2").state.document "inside" = some "1 &lt; 2" ∧
    (some "1 &lt; 2" : Option String) ≠ some "1 < 2" := by
  refine ⟨?_, by decide, by decide, by decide⟩
  intro parse hparse
  have hreq := issuedByTable_generateTable exampleState (catInput "Food") (by decide)
  have he : getElementById (generateTable exampleState).state.document "inside" =
      some insideDiv := by decide
  have hst := receiveResponse_table_state parse _ 0 200 "1 < 2" hreq
  rw [hst]
  simp only [if_true]
  rw [innerHTML_of_fragment _ "inside" insideDiv (parse insideDiv "1 < 2")
    (by rw [getElementById_setInnerHTML_self]; exact he)
    (fragmentOf_setInnerHTML_self parse _ _ _ insideDiv he), hparse]
  decide

/-- C4 as amended: when the request issued by `generateTable` completes with
status 200 and body `b` and the page has an element with id `inside`, the
handler ends normally, the element itself is the same, and its descendants are
exactly the nodes the fragment parser builds from `b` with that element as
context, replacing what was there before; reading `innerHTML` then gives the
serialisation of those nodes, which is `b` itself when the parser builds one
text node holding `b` and no character of `b` is escaped. -/
theorem inside_descendants_after_success (parse : HTMLParser) (s : State) (xhr : Nat)
    (b : String) (e : Node)
    (hreq : IssuedByTable s xhr)
    (he : getElementById s.document "inside" = some e) :
    (receiveResponse parse s xhr 200 b).error = none ∧
    getElementById (receiveResponse parse s xhr 200 b).state.document "inside" = some e ∧
    fragmentOf (receiveResponse parse s xhr 200 b).state.document "inside" = parse e b ∧
    innerHTML (receiveResponse parse s xhr 200 b).state.document "inside" =
      serializeText (rawTextTags.contains e.tag) (parse e b) ∧
    (parse e b = [textNode 0 b] →
      (rawTextTags.contains e.tag = true ∨ ∀ c ∈ b.data, escapeChar c = [c]) →
      innerHTML (receiveResponse parse s xhr 200 b).state.document "inside" = some b) := by
  have hst := receiveResponse_table_state parse s xhr 200 b hreq
  have her := receiveResponse_table_error parse s xhr 200 b hreq
  have hdoc : (receiveResponse parse s xhr 200 b).state.document =
      setInnerHTML parse s.document "inside" b := by
    rw [hst]; simp
  have hget : getElementById (setInnerHTML parse s.document "inside" b) "inside" =
      some e := by
    rw [getElementById_setInnerHTML_self]; exact he
  have hfrag := fragmentOf_setInnerHTML_self parse s.document "inside" b e he
  refine ⟨?_, ?_, ?_, ?_, ?_⟩
  · rw [her]; simp [he]
  · rw [hdoc]; exact hget
  · rw [hdoc]; exact hfrag
  · rw [hdoc]; exact innerHTML_of_fragment _ _ e _ hget hfrag
  · intro hp hplain
    rw [hdoc, innerHTML_of_fragment _ _ e _ hget hfrag, hp]
    exact serializeText_single _ b hplain

theorem inside_descendants_after_success_witness :
    IssuedByTable (generateTable exampleState).state 0 ∧
    getElementById (generateTable exampleState).state.document "inside" = some insideDiv ∧
    ((receiveResponse plainTextParser (generateTable exampleState).state 0 200
        "Bread, Rice").error = none ∧
      getElementById (receiveResponse plainTextParser (generateTable exampleState).state
        0 200 "Bread, Rice").state.document "inside" = some insideDiv ∧
      fragmentOf (receiveResponse plainTextParser (generateTable exampleState).state
        0 200 "Bread, Rice").state.document "inside" =
        plainTextParser insideDiv "Bread, Rice" ∧
      innerHTML (receiveResponse plainTextParser (generateTable exampleState).state
        0 200 "Bread, Rice").state.document "inside" =
        serializeText (rawTextTags.contains insideDiv.tag)
          (plainTextParser insideDiv "Bread, Rice") ∧
      (plainTextParser insideDiv "Bread, Rice" = [textNode 0 "Bread, Rice"] →
        (rawTextTags.contains insideDiv.tag = true ∨
          ∀ c ∈ ("Bread, Rice" : String).data, escapeChar c = [c]) →
        innerHTML (receiveResponse plainTextParser (generateTable exampleState).state
          0 200 "Bread, Rice").state.document "inside" = some "Bread, Rice")) :=
  ⟨issuedByTable_generateTable exampleState (catInput "Food") (by decide), by decide,
    inside_descendants_after_success plainTextParser (generateTable exampleState).state
      0 "Bread, Rice" insideDiv
      (issuedByTable_generateTable exampleState (catInput "Food") (by decide)) (by decide)⟩

/-- C5: when the request issued by `generateTable` completes with a status
other than 200 (500 for one), or fails at the transport level, the whole
document, and so the descendants and the `innerHTML` of element `inside`, is
as before and no exception is raised, whatever the fragment parser: nothing is
written. -/
theorem inside_unchanged_after_failure (parse : HTMLParser) (s : State)
    (xhr status : Nat) (b : String)
    (hreq : IssuedByTable s xhr) (hstatus : status ≠ 200) :
    (receiveResponse parse s xhr status b).state.document = s.document ∧
    fragmentOf (receiveResponse parse s xhr status b).state.document "inside" =
      fragmentOf s.document "inside" ∧
    innerHTML (receiveResponse parse s xhr status b).state.document "inside" =
      innerHTML s.document "inside" ∧
    (receiveResponse parse s xhr status b).error = none ∧
    (networkError s xhr).state.document = s.document ∧
    fragmentOf (networkError s xhr).state.document "inside" =
      fragmentOf s.document "inside" ∧
    innerHTML (networkError s xhr).state.document "inside" = innerHTML s.document "inside" ∧
    (networkError s xhr).error = none := by
  have hst := receiveResponse_table_state parse s xhr status b hreq
  have her := receiveResponse_table_error parse s xhr status b hreq
  have hne := networkError_eq s xhr
  have hdoc : (receiveResponse parse s xhr status b).state.document = s.document := by
    rw [hst]; simp [hstatus, recordResponse]
  refine ⟨hdoc, by rw [hdoc], by rw [hdoc], ?_, hne.1, by rw [hne.1], by rw [hne.1], hne.2⟩
  rw [her]; simp [hstatus]

theorem inside_unchanged_after_failure_witness :
    IssuedByTable (generateTable exampleState).state 0 ∧ (500 : Nat) ≠ 200 ∧
    ((receiveResponse plainTextParser (generateTable exampleState).state 0 500
        "error").state.document = (generateTable exampleState).state.document ∧
      fragmentOf (receiveResponse plainTextParser (generateTable exampleState).state 0 500
          "error").state.document "inside" =
        fragmentOf (generateTable exampleState).state.document "inside" ∧
      innerHTML (receiveResponse plainTextParser (generateTable exampleState).state 0 500
          "error").state.document "inside" =
        innerHTML (generateTable exampleState).state.document "inside" ∧
      (receiveResponse plainTextParser (generateTable exampleState).state 0 500
        "error").error = none ∧
      (networkError (generateTable exampleState).state 0).state.document =
        (generateTable exampleState).state.document ∧
      fragmentOf (networkError (generateTable exampleState).state 0).state.document "inside" =
        fragmentOf (generateTable exampleState).state.document "inside" ∧
      innerHTML (networkError (generateTable exampleState).state 0).state.document "inside" =
        innerHTML (generateTable exampleState).state.document "inside" ∧
      (networkError (generateTable exampleState).state 0).error = none) :=
  ⟨issuedByTable_generateTable exampleState (catInput "Food") (by decide), by decide,
    inside_unchanged_after_failure plainTextParser (generateTable exampleState).state
      0 500 "error"
      (issuedByTable_generateTable exampleState (catInput "Food") (by decide)) (by decide)⟩

/-! ## The listener and the request of `generateSelection` -/

/-- C6: the listener the script registers for `DOMContentLoaded` is one call of
`generateSelection`; with the script's listener the only one registered,
firing the event is exactly that one call and raises nothing; and a call of
`generateSelection` returns normally having created exactly one request
object, an asynchronous POST to `GetCategories.do` sent with a null body and
still pending, while the document, the global `category` and the listeners
are as before. -/
theorem domContentLoaded_issues_one_request (s : State)
    (hl : s.listeners = [("DOMContentLoaded", Listener.domContentLoaded_listener)]) :
    (∀ t : State, t.listeners = [] → (script t).listeners = s.listeners) ∧
    Listener.call .domContentLoaded_listener s = generateSelection s ∧
    dispatchEvent s "DOMContentLoaded" = ((generateSelection s).state, []) ∧
    (generateSelection s).error = none ∧
    (∃ x, (generateSelection s).state.heap = s.heap ++ [x] ∧
      x.method = "POST" ∧ x.url = "GetCategories.do" ∧ x.async = true ∧
      x.sendFlag = true ∧ x.done = false ∧ x.requestBody = none) ∧
    (generateSelection s).state.document = s.document ∧
    (generateSelection s).state.category = s.category ∧
    (generateSelection s).state.listeners = s.listeners := by
  refine ⟨?_, rfl, ?_, ?_, ?_, ?_, ?_, ?_⟩
  · intro t ht
    simp [script, ht, hl]
  · simp [dispatchEvent, hl, runListeners, Listener.call, generateSelection_eq, Outcome.ok]
  · rw [generateSelection_eq]; rfl
  · rw [generateSelection_eq]
    exact ⟨selectionRequest s.heap.length, rfl, rfl, rfl, rfl, rfl, rfl, rfl⟩
  · rw [generateSelection_eq]; rfl
  · rw [generateSelection_eq]; rfl
  · rw [generateSelection_eq]; rfl

theorem domContentLoaded_issues_one_request_witness :
    (script exampleState).listeners =
      [("DOMContentLoaded", Listener.domContentLoaded_listener)] ∧
    ((∀ t : State, t.listeners = [] → (script t).listeners = (script exampleState).listeners) ∧
      Listener.call .domContentLoaded_listener (script exampleState) =
        generateSelection (script exampleState) ∧
      dispatchEvent (script exampleState) "DOMContentLoaded" =
        ((generateSelection (script exampleState)).state, []) ∧
      (generateSelection (script exampleState)).error = none ∧
      (∃ x, (generateSelection (script exampleState)).state.heap =
          (script exampleState).heap ++ [x] ∧
        x.method = "POST" ∧ x.url = "GetCategories.do" ∧ x.async = true ∧
        x.sendFlag = true ∧ x.done = false ∧ x.requestBody = none) ∧
      (generateSelection (script exampleState)).state.document =
        (script exampleState).document ∧
      (generateSelection (script exampleState)).state.category =
        (script exampleState).category ∧
      (generateSelection (script exampleState)).state.listeners =
        (script exampleState).listeners) :=
  ⟨by decide, domContentLoaded_issues_one_request (script exampleState) (by decide)⟩

/-! ## Independence of the two completion handlers -/

/-- C7 fails as stated: on the example page with both requests pending, let
the selection response be `<span id=inside>new</span>` and the table response
`rows`, both with status 200.  For every fragment parser that parses these
bodies as the HTML parser does, completing the selection request first sends
the table write to the new `span`, completing the table request first sends it
to the old container: the two final pages differ, and the selection handler
changed which element has id `inside`. -/
theorem completion_order_matters :
    (∀ parse : HTMLParser,
      parse categoryDiv "<span id=inside>new</span>" = [spanInside 0, textNode 1 "new"] →
      parse (spanInside 1) "rows" = [textNode 0 "rows"] →
      parse insideDiv "rows" = [textNode 0 "rows"] →
      (receiveResponse parse (receiveResponse parse examplePending 0 200
          "<span id=inside>new</span>").state 1 200 "rows").state.document =
        [categoryDiv, spanInside 1, textNode 2 "rows", catInput "Food", insideDiv,
          textNode 1 "old table"] ∧
      (receiveResponse parse (receiveResponse parse examplePending 1 200
          "rows").state 0 200 "<span id=inside>new</span>").state.document =
        [categoryDiv, spanInside 1, textNode 2 "new", catInput "Food", insideDiv,
          textNode 1 "rows"] ∧
      getElementById (receiveResponse parse examplePending 0 200
          "<span id=inside>new</span>").state.document "inside" = some (spanInside 1) ∧
      getElementById examplePending.document "inside" = some insideDiv) ∧
    (spanParser categoryDiv "<span id=inside>new</span>" = [spanInside 0, textNode 1 "new"] ∧
      spanParser (spanInside 1) "rows" = [textNode 0 "rows"] ∧
      spanParser insideDiv "rows" = [textNode 0 "rows"]) ∧
    (receiveResponse spanParser (receiveResponse spanParser examplePending 0 200
        "<span id=inside>new</span>").state 1 200 "rows").state.document ≠
      (receiveResponse spanParser (receiveResponse spanParser examplePending 1 200
        "rows").state 0 200 "<span id=inside>new</span>").state.document ∧
    ([categoryDiv, spanInside 1, textNode 2 "rows", catInput "Food", insideDiv,
        textNode 1 "old table"] : Document) ≠
      [categoryDiv, spanInside 1, textNode 2 "new", catInput "Food", insideDiv,
        textNode 1 "rows"] ∧
    spanInside 1 ≠ insideDiv := by
  refine ⟨?_, by decide, by decide, by decide, by decide⟩
  intro parse f1 f2 f3
  have hi : IssuedBySelection examplePending 0 := ⟨selectionRequest 0, by decide, rfl, rfl, rfl⟩
  have hj : IssuedByTable examplePending 1 := ⟨tableRequest 1 "Food", by decide, rfl, rfl, rfl⟩
  have hd : examplePending.document = examplePage := by decide
  have d1 : setInnerHTML parse examplePage "category" "<span id=inside>new</span>" =
      [categoryDiv, spanInside 1, textNode 2 "new", catInput "Food", insideDiv,
        textNode 1 "old table"] := by
    have : setInnerHTML parse examplePage "category" "<span id=inside>new</span>" =
        categoryDiv :: (graft categoryDiv (parse categoryDiv "<span id=inside>new</span>") ++
          [catInput "Food", insideDiv, textNode 1 "old table"]) := rfl
    rw [this, f1]
    rfl
  have d2 : setInnerHTML parse [categoryDiv, spanInside 1, textNode 2 "new", catInput "Food",
        insideDiv, textNode 1 "old table"] "inside" "rows" =
      [categoryDiv, spanInside 1, textNode 2 "rows", catInput "Food", insideDiv,
        textNode 1 "old table"] := by
    have : setInnerHTML parse [categoryDiv, spanInside 1, textNode 2 "new", catInput "Food",
          insideDiv, textNode 1 "old table"] "inside" "rows" =
        categoryDiv :: spanInside 1 :: (graft (spanInside 1) (parse (spanInside 1) "rows") ++
          [catInput "Food", insideDiv, textNode 1 "old table"]) := rfl
    rw [this, f2]
    rfl
  have d3 : setInnerHTML parse examplePage "inside" "rows" =
      [categoryDiv, textNode 1 "old categories", catInput "Food", insideDiv,
        textNode 1 "rows"] := by
    have : setInnerHTML parse examplePage "inside" "rows" =
        categoryDiv :: textNode 1 "old categories" :: catInput "Food" :: insideDiv ::
          (graft insideDiv (parse insideDiv "rows") ++ []) := rfl
    rw [this, f3]
    rfl
  have d4 : setInnerHTML parse [categoryDiv, textNode 1 "old categories", catInput "Food",
        insideDiv, textNode 1 "rows"] "category" "<span id=inside>new</span>" =
      [categoryDiv, spanInside 1, textNode 2 "new", catInput "Food", insideDiv,
        textNode 1 "rows"] := by
    have : setInnerHTML parse [categoryDiv, textNode 1 "old categories", catInput "Food",
          insideDiv, textNode 1 "rows"] "category" "<span id=inside>new</span>" =
        categoryDiv :: (graft categoryDiv (parse categoryDiv "<span id=inside>new</span>") ++
          [catInput "Food", insideDiv, textNode 1 "rows"]) := rfl
    rw [this, f1]
    rfl
  refine ⟨?_, ?_, ?_, by decide⟩
  · rw [selection_then_table_state parse _ 0 1 200 200 _ _ hi hj]
    simp only [if_true, hd, d1, d2]
  · rw [table_then_selection_state parse _ 0 1 200 200 _ _ hi hj]
    simp only [if_true, hd, d3, d4]
  · rw [receiveResponse_selection_state parse _ 0 200 _ hi]
    simp only [if_true, hd, d1]
    decide

/-- C7 as amended: suppose neither container has an element with the id of
the other among its descendants, the nodes parsed from the selection body hold
no element with id `inside` and the nodes parsed from the table body none with
id `category`.  Then, with a request of `generateSelection` and one of
`generateTable` pending, completing one and then the other gives the same
state as the opposite order, whatever the statuses; the completion of a
pending selection request leaves element `inside` and its descendants as they
were, and the completion of a pending table request leaves element `category`
and its descendants as they were. -/
theorem completion_handlers_commute_when_separate (parse : HTMLParser) (s : State)
    (i j st1 st2 : Nat) (b1 b2 : String)
    (hA : ∀ n ∈ fragmentOf s.document "category", n.hasId "inside" = false)
    (hB : ∀ n ∈ fragmentOf s.document "inside", n.hasId "category" = false)
    (hN1 : ∀ e, getElementById s.document "category" = some e →
      ∀ n ∈ parse e b1, n.hasId "inside" = false)
    (hN2 : ∀ e, getElementById s.document "inside" = some e →
      ∀ n ∈ parse e b2, n.hasId "category" = false) :
    (IssuedBySelection s i → IssuedByTable s j →
      (receiveResponse parse (receiveResponse parse s i st1 b1).state j st2 b2).state =
        (receiveResponse parse (receiveResponse parse s j st2 b2).state i st1 b1).state) ∧
    (IssuedBySelection s i →
      getElementById (receiveResponse parse s i st1 b1).state.document "inside" =
        getElementById s.document "inside" ∧
      fragmentOf (receiveResponse parse s i st1 b1).state.document "inside" =
        fragmentOf s.document "inside") ∧
    (IssuedByTable s j →
      getElementById (receiveResponse parse s j st2 b2).state.document "category" =
        getElementById s.document "category" ∧
      fragmentOf (receiveResponse parse s j st2 b2).state.document "category" =
        fragmentOf s.document "category") := by
  have hne : ("category" : String) ≠ "inside" := by decide
  have f1 := setInnerHTML_frame parse s.document "category" "inside" b1 hne hA hB hN1
  have f2 := setInnerHTML_frame parse s.document "inside" "category" b2 (Ne.symm hne) hB hA hN2
  refine ⟨?_, ?_, ?_⟩
  · intro hi hj
    have hij : i ≠ j := selection_ne_table hi hj
    rw [selection_then_table_state parse s i j st1 st2 b1 b2 hi hj,
      table_then_selection_state parse s i j st1 st2 b1 b2 hi hj]
    have hc := updateAt_comm s.heap i j hij
      (fun x => { x with status := st1, responseText := b1, done := true })
      (fun x => { x with status := st2, responseText := b2, done := true })
    have hd := setInnerHTML_comm parse s.document "category" "inside" b1 b2 hne hA hB hN1 hN2
    by_cases c1 : st1 = 200 <;> by_cases c2 : st2 = 200
    · simp only [if_pos c1, if_pos c2, hc, hd]
    · simp only [if_pos c1, if_neg c2, hc]
    · simp only [if_neg c1, if_pos c2, hc]
    · simp only [if_neg c1, if_neg c2, hc]
  · intro hi
    rw [receiveResponse_selection_state parse s i st1 b1 hi]
    by_cases c1 : st1 = 200
    · simp only [if_pos c1]; exact f1
    · simp only [if_neg c1]; exact ⟨trivial, trivial⟩
  · intro hj
    rw [receiveResponse_table_state parse s j st2 b2 hj]
    by_cases c2 : st2 = 200
    · simp only [if_pos c2]; exact f2
    · simp only [if_neg c2]; exact ⟨trivial, trivial⟩

theorem completion_handlers_commute_when_separate_witness :
    (∀ n ∈ fragmentOf examplePending.document "category", n.hasId "inside" = false) ∧
    (∀ n ∈ fragmentOf examplePending.document "inside", n.hasId "category" = false) ∧
    (∀ e, getElementById examplePending.document "category" = some e →
      ∀ n ∈ plainTextParser e "Food, Drinks", n.hasId "inside" = false) ∧
    (∀ e, getElementById examplePending.document "inside" = some e →
      ∀ n ∈ plainTextParser e "Bread", n.hasId "category" = false) ∧
    IssuedBySelection examplePending 0 ∧ IssuedByTable examplePending 1 ∧
    (receiveResponse plainTextParser (receiveResponse plainTextParser examplePending 0 200
        "Food, Drinks").state 1 200 "Bread").state =
      (receiveResponse plainTextParser (receiveResponse plainTextParser examplePending 1 200
        "Bread").state 0 200 "Food, Drinks").state ∧
    (getElementById (receiveResponse plainTextParser examplePending 0 200
        "Food, Drinks").state.document "inside" =
        getElementById examplePending.document "inside" ∧
      fragmentOf (receiveResponse plainTextParser examplePending 0 200
        "Food, Drinks").state.document "inside" =
        fragmentOf examplePending.document "inside") ∧
    (getElementById (receiveResponse plainTextParser examplePending 1 200
        "Bread").state.document "category" =
        getElementById examplePending.document "category" ∧
      fragmentOf (receiveResponse plainTextParser examplePending 1 200
        "Bread").state.document "category" =
        fragmentOf examplePending.document "category") :=
  ⟨by decide, by decide,
    fun e _ => plainTextParser_hasId e "Food, Drinks" "inside",
    fun e _ => plainTextParser_hasId e "Bread" "category",
    ⟨selectionRequest 0, by decide, rfl, rfl, rfl⟩,
    ⟨tableRequest 1 "Food", by decide, rfl, rfl, rfl⟩,
    (completion_handlers_commute_when_separate plainTextParser examplePending 0 1 200 200
      "Food, Drinks" "Bread" (by decide) (by decide)
      (fun e _ => plainTextParser_hasId e "Food, Drinks" "inside")
      (fun e _ => plainTextParser_hasId e "Bread" "category")).1
      ⟨selectionRequest 0, by decide, rfl, rfl, rfl⟩
      ⟨tableRequest 1 "Food", by decide, rfl, rfl, rfl⟩,
    (completion_handlers_commute_when_separate plainTextParser examplePending 0 1 200 200
      "Food, Drinks" "Bread" (by decide) (by decide)
      (fun e _ => plainTextParser_hasId e "Food, Drinks" "inside")
      (fun e _ => plainTextParser_hasId e "Bread" "category")).2.1
      ⟨selectionRequest 0, by decide, rfl, rfl, rfl⟩,
    (completion_handlers_commute_when_separate plainTextParser examplePending 0 1 200 200
      "Food, Drinks" "Bread" (by decide) (by decide)
      (fun e _ => plainTextParser_hasId e "Food, Drinks" "inside")
      (fun e _ => plainTextParser_hasId e "Bread" "category")).2.2
      ⟨tableRequest 1 "Food", by decide, rfl, rfl, rfl⟩⟩

/-! ## The global `category` -/

/-- C8, evaluated on the example page: before the call the global object has no
property `category`; `generateTable` returns normally and leaves the global
`category` holding the text "Food", which outlives the call; a second call
starts from that value. -/
theorem generateTable_assigns_global_category :
    exampleState.category = none ∧
    (generateTable exampleState).error = none ∧
    (generateTable exampleState).state.category = some (.string "Food") ∧
    (generateTable exampleState).state.category ≠ exampleState.category ∧
    (generateSelection (generateTable exampleState).state).state.category =
      some (.string "Food") := by
  decide

/-! ## Faults of the completion handlers -/

/-- C9: whatever the fragment parser, the status and the body, the completion
handler of a pending `generateSelection` request raises an exception exactly
when the status is 200 and the page has no element with id `category`; so with
the container present, or with a status other than 200, there is no
exception; and when there is one the document is as before.  The same holds,
on its own, for a pending `generateTable` request and id `inside`. -/
theorem handler_faults_iff_container_missing (parse : HTMLParser) (s : State) (i st : Nat)
    (b : String) :
    (IssuedBySelection s i →
      ((receiveResponse parse s i st b).error ≠ none ↔
        st = 200 ∧ getElementById s.document "category" = none) ∧
      (getElementById s.document "category" ≠ none →
        (receiveResponse parse s i st b).error = none) ∧
      (st ≠ 200 → (receiveResponse parse s i st b).error = none) ∧
      ((receiveResponse parse s i st b).error ≠ none →
        (receiveResponse parse s i st b).state.document = s.document)) ∧
    (IssuedByTable s i →
      ((receiveResponse parse s i st b).error ≠ none ↔
        st = 200 ∧ getElementById s.document "inside" = none) ∧
      (getElementById s.document "inside" ≠ none →
        (receiveResponse parse s i st b).error = none) ∧
      (st ≠ 200 → (receiveResponse parse s i st b).error = none) ∧
      ((receiveResponse parse s i st b).error ≠ none →
        (receiveResponse parse s i st b).state.document = s.document)) := by
  constructor
  · intro hi
    have e1 := receiveResponse_selection_error parse s i st b hi
    have s1 := receiveResponse_selection_state parse s i st b hi
    refine ⟨?_, ?_, ?_, ?_⟩
    · rw [e1]
      by_cases c : st = 200 ∧ getElementById s.document "category" = none
      · simp [c]
      · simp only [if_neg c]; simp [c]
    · intro hne
      rw [e1, if_neg (fun c => hne c.2)]
    · intro hne
      rw [e1, if_neg (fun c => hne c.1)]
    · intro herr
      rw [e1] at herr
      by_cases c : st = 200 ∧ getElementById s.document "category" = none
      · rw [s1]
        simp [c.1, setInnerHTML_of_none _ _ _ _ c.2]
      · rw [if_neg c] at herr
        exact absurd rfl herr
  · intro hj
    have e2 := receiveResponse_table_error parse s i st b hj
    have s2 := receiveResponse_table_state parse s i st b hj
    refine ⟨?_, ?_, ?_, ?_⟩
    · rw [e2]
      by_cases c : st = 200 ∧ getElementById s.document "inside" = none
      · simp [c]
      · simp only [if_neg c]; simp [c]
    · intro hne
      rw [e2, if_neg (fun c => hne c.2)]
    · intro hne
      rw [e2, if_neg (fun c => hne c.1)]
    · intro herr
      rw [e2] at herr
      by_cases c : st = 200 ∧ getElementById s.document "inside" = none
      · rw [s2]
        simp [c.1, setInnerHTML_of_none _ _ _ _ c.2]
      · rw [if_neg c] at herr
        exact absurd rfl herr

theorem handler_faults_iff_container_missing_witness :
    IssuedBySelection exampleBareLoaded 0 ∧
    (((receiveResponse plainTextParser exampleBareLoaded 0 200 "Food").error ≠ none ↔
        200 = 200 ∧ getElementById exampleBareLoaded.document "category" = none) ∧
      (getElementById exampleBareLoaded.document "category" ≠ none →
        (receiveResponse plainTextParser exampleBareLoaded 0 200 "Food").error = none) ∧
      (200 ≠ 200 →
        (receiveResponse plainTextParser exampleBareLoaded 0 200 "Food").error = none) ∧
      ((receiveResponse plainTextParser exampleBareLoaded 0 200 "Food").error ≠ none →
        (receiveResponse plainTextParser exampleBareLoaded 0 200 "Food").state.document =
          exampleBareLoaded.document)) ∧
    IssuedByTable exampleBareTable 0 ∧
    (((receiveResponse plainTextParser exampleBareTable 0 200 "Food").error ≠ none ↔
        200 = 200 ∧ getElementById exampleBareTable.document "inside" = none) ∧
      (getElementById exampleBareTable.document "inside" ≠ none →
        (receiveResponse plainTextParser exampleBareTable 0 200 "Food").error = none) ∧
      (200 ≠ 200 →
        (receiveResponse plainTextParser exampleBareTable 0 200 "Food").error = none) ∧
      ((receiveResponse plainTextParser exampleBareTable 0 200 "Food").error ≠ none →
        (receiveResponse plainTextParser exampleBareTable 0 200 "Food").state.document =
          exampleBareTable.document)) :=
  ⟨⟨selectionRequest 0, by decide, rfl, rfl, rfl⟩,
    (handler_faults_iff_container_missing plainTextParser exampleBareLoaded 0 200 "Food").1
      ⟨selectionRequest 0, by decide, rfl, rfl, rfl⟩,
    ⟨tableRequest 0 "Food", by decide, rfl, rfl, rfl⟩,
    (handler_faults_iff_container_missing plainTextParser exampleBareTable 0 200 "Food").2
      ⟨tableRequest 0 "Food", by decide, rfl, rfl, rfl⟩⟩

/-! ## Two calls of `generateTable` in flight -/

/-- C10 fails as stated: `generateTable` is called on the example page with
`cat` holding "Food" and again with `cat` holding "Drinks"; the response to
the second request arrives first, then the response to the first with status
200 and body `Fish & Chips`.  For every fragment parser that builds one text
node from that body (as the HTML parser does), element `inside` ends with
`innerHTML` reading `Fish &amp; Chips`, which is not the body of the response
that completed last. -/
theorem last_response_not_verbatim :
    (∀ parse : HTMLParser,
      parse insideDiv "Fish & Chips" = [textNode 0 "Fish & Chips"] →
      innerHTML (receiveResponse parse (receiveResponse parse
          (generateTable exampleSecond).state 1 200 "Tea").state 0 200
          "Fish & Chips").state.document "inside" = some "Fish &amp; Chips") ∧
    plainTextParser insideDiv "Fish & Chips" = [textNode 0 "Fish & Chips"] ∧
    innerHTML (receiveResponse plainTextParser (receiveResponse plainTextParser
        (generateTable exampleSecond).state 1 200 "Tea").state 0 200
        "Fish & Chips").state.document "inside" = some "Fish &amp; Chips" ∧
    (some "Fish &amp; Chips" : Option String) ≠ some "Fish & Chips" := by
  refine ⟨?_, by decide, by decide, by decide⟩
  intro parse hparse
  have h0 : IssuedByTable (generateTable exampleSecond).state 0 :=
    ⟨tableRequest 0 "Food", by decide, rfl, rfl, rfl⟩
  have h1 : IssuedByTable (generateTable exampleSecond).state 1 :=
    ⟨tableRequest 1 "Drinks", by decide, rfl, rfl, rfl⟩
  have he : getElementById (generateTable exampleSecond).state.document "inside" =
      some insideDiv := by decide
  have h := two_table_responses parse _ 1 0 h1 h0 (by decide) insideDiv he 200 200
    "Tea" "Fish & Chips"
  rw [innerHTML_of_fragment _ "inside" insideDiv _ h.1 h.2]
  simp only [if_true, hparse]
  decide

/-- C10 as amended: `generateTable` is called in a state `s0` where `cat` holds
`c1.value`, and again, before any response, in a state `s1` with the same heap
where `cat` holds `c2.value`.  The heap then ends with two pending table
requests whose bodies are `String` of the value read at their own call, the
global `category` holds the later text, and, for all statuses and bodies,
in either order of completion, element `inside` is the same element and its
descendants are the nodes the fragment parser builds from the body of the
status-200 response that completed last (its old descendants when neither
status is 200). -/
theorem generateTable_twice_last_write_wins (parse : HTMLParser) (s0 s1 : State)
    (c1 c2 e : Node) (st1 st2 : Nat) (b1 b2 : String)
    (h1 : getElementById s0.document "cat" = some c1)
    (hheap : s1.heap = (generateTable s0).state.heap)
    (h2 : getElementById s1.document "cat" = some c2)
    (he : getElementById s1.document "inside" = some e) :
    (generateTable s1).state.heap =
      s0.heap ++ [tableRequest s0.heap.length (jsString c1.value),
                  tableRequest (s0.heap.length + 1) (jsString c2.value)] ∧
    ((generateTable s1).state.heap[s0.heap.length]?).map (·.requestBody) =
      some (some (jsString c1.value)) ∧
    ((generateTable s1).state.heap[s0.heap.length + 1]?).map (·.requestBody) =
      some (some (jsString c2.value)) ∧
    (generateTable s1).state.category = some (.string (jsString c2.value)) ∧
    IssuedByTable (generateTable s1).state s0.heap.length ∧
    IssuedByTable (generateTable s1).state (s0.heap.length + 1) ∧
    (getElementById (receiveResponse parse (receiveResponse parse (generateTable s1).state
        s0.heap.length st1 b1).state (s0.heap.length + 1) st2 b2).state.document "inside" =
        some e ∧
      fragmentOf (receiveResponse parse (receiveResponse parse (generateTable s1).state
        s0.heap.length st1 b1).state (s0.heap.length + 1) st2 b2).state.document "inside" =
        (if st2 = 200 then parse e b2 else if st1 = 200 then parse e b1
          else fragmentOf s1.document "inside")) ∧
    (getElementById (receiveResponse parse (receiveResponse parse (generateTable s1).state
        (s0.heap.length + 1) st2 b2).state s0.heap.length st1 b1).state.document "inside" =
        some e ∧
      fragmentOf (receiveResponse parse (receiveResponse parse (generateTable s1).state
        (s0.heap.length + 1) st2 b2).state s0.heap.length st1 b1).state.document "inside" =
        (if st1 = 200 then parse e b1 else if st2 = 200 then parse e b2
          else fragmentOf s1.document "inside")) := by
  have hs1 : s1.heap = s0.heap ++ [tableRequest s0.heap.length (jsString c1.value)] := by
    rw [hheap, generateTable_eq s0 c1 h1]; rfl
  have hheap2 : (generateTable s1).state.heap =
      s0.heap ++ [tableRequest s0.heap.length (jsString c1.value),
                  tableRequest (s0.heap.length + 1) (jsString c2.value)] := by
    rw [generateTable_eq s1 c2 h2]
    simp [Outcome.ok, hs1]
  have hdoc : (generateTable s1).state.document = s1.document := by
    rw [generateTable_eq s1 c2 h2]; rfl
  have hg1 : (generateTable s1).state.heap[s0.heap.length]? =
      some (tableRequest s0.heap.length (jsString c1.value)) := by
    rw [hheap2]; exact (getElem?_append_pair _ _ _).1
  have hg2 : (generateTable s1).state.heap[s0.heap.length + 1]? =
      some (tableRequest (s0.heap.length + 1) (jsString c2.value)) := by
    rw [hheap2]; exact (getElem?_append_pair _ _ _).2
  have hi1 : IssuedByTable (generateTable s1).state s0.heap.length :=
    ⟨_, hg1, rfl, rfl, rfl⟩
  have hi2 : IssuedByTable (generateTable s1).state (s0.heap.length + 1) :=
    ⟨_, hg2, rfl, rfl, rfl⟩
  have he2 : getElementById (generateTable s1).state.document "inside" = some e := by
    rw [hdoc]; exact he
  have hA := two_table_responses parse _ _ _ hi1 hi2 (Nat.ne_of_lt (Nat.lt_succ_self _)) e
    he2 st1 st2 b1 b2
  have hB := two_table_responses parse _ _ _ hi2 hi1 (Nat.ne_of_gt (Nat.lt_succ_self _)) e
    he2 st2 st1 b2 b1
  rw [hdoc] at hA hB
  refine ⟨hheap2, ?_, ?_, ?_, hi1, hi2, hA, hB⟩
  · rw [hg1]; rfl
  · rw [hg2]; rfl
  · rw [generateTable_eq s1 c2 h2]; rfl

theorem generateTable_twice_last_write_wins_witness :
    getElementById exampleState.document "cat" = some (catInput "Food") ∧
    exampleSecond.heap = (generateTable exampleState).state.heap ∧
    getElementById exampleSecond.document "cat" = some (catInput "Drinks") ∧
    getElementById exampleSecond.document "inside" = some insideDiv ∧
    ((generateTable exampleSecond).state.heap =
        exampleState.heap ++
          [tableRequest exampleState.heap.length (jsString (catInput "Food").value),
            tableRequest (exampleState.heap.length + 1)
              (jsString (catInput "Drinks").value)] ∧
      ((generateTable exampleSecond).state.heap[exampleState.heap.length]?).map
          (·.requestBody) = some (some (jsString (catInput "Food").value)) ∧
      ((generateTable exampleSecond).state.heap[exampleState.heap.length + 1]?).map
          (·.requestBody) = some (some (jsString (catInput "Drinks").value)) ∧
      (generateTable exampleSecond).state.category =
        some (.string (jsString (catInput "Drinks").value)) ∧
      IssuedByTable (generateTable exampleSecond).state exampleState.heap.length ∧
      IssuedByTable (generateTable exampleSecond).state (exampleState.heap.length + 1) ∧
      (getElementById (receiveResponse plainTextParser (receiveResponse plainTextParser
          (generateTable exampleSecond).state exampleState.heap.length 200 "Bread").state
          (exampleState.heap.length + 1) 200 "Tea").state.document "inside" =
          some insideDiv ∧
        fragmentOf (receiveResponse plainTextParser (receiveResponse plainTextParser
          (generateTable exampleSecond).state exampleState.heap.length 200 "Bread").state
          (exampleState.heap.length + 1) 200 "Tea").state.document "inside" =
          (if 200 = 200 then plainTextParser insideDiv "Tea"
            else if 200 = 200 then plainTextParser insideDiv "Bread"
            else fragmentOf exampleSecond.document "inside")) ∧
      (getElementById (receiveResponse plainTextParser (receiveResponse plainTextParser
          (generateTable exampleSecond).state (exampleState.heap.length + 1) 200
          "Tea").state exampleState.heap.length 200 "Bread").state.document "inside" =
          some insideDiv ∧
        fragmentOf (receiveResponse plainTextParser (receiveResponse plainTextParser
          (generateTable exampleSecond).state (exampleState.heap.length + 1) 200
          "Tea").state exampleState.heap.length 200 "Bread").state.document "inside" =
          (if 200 = 200 then plainTextParser insideDiv "Bread"
            else if 200 = 200 then plainTextParser insideDiv "Tea"
            else fragmentOf exampleSecond.document "inside"))) :=
  ⟨by decide, by decide, by decide, by decide,
    generateTable_twice_last_write_wins plainTextParser exampleState exampleSecond
      (catInput "Food") (catInput "Drinks") insideDiv 200 200 "Bread" "Tea"
      (by decide) (by decide) (by decide) (by decide)⟩

end PassData
